import Mathlib

/-!
Shallow embedding of the Media Delivery Gateway of `src/backend/app.py`:
the filtered pagination engine (`get_songs`), the process-wide thumbnail
existence cache, the range-aware streaming proxy (`stream_song`) and the
disk thumbnail cache with its eviction sweep (`api_get_thumbnail`).

Conventions of the embedding:
* song identifiers are `String`s (the code always works on `str(song['id'])`);
* the catalog is the ordered list of rows the underlying query would return
  (`order('updated_at', desc=True)` or the randomized order), so `.range(a, b)`
  becomes a slice of that list;
* the object store is a pure predicate `probe : String → Bool` on probe keys
  (`head_object` succeeding / raising), and fallible collaborators (signing,
  upstream GET, disk I/O) are `Except`-valued or `Bool`-valued parameters;
* wall-clock time is a `Nat` of seconds.
-/

namespace SpotifyGateway

/-! ### Key derivation (`app.py` lines 313-322 and 602-614) -/

/-- Python `s.lstrip('0')`: drop the leading `'0'` characters. -/
def stripLeadingZeros (s : String) : String :=
  String.mk (s.toList.dropWhile (fun c => c == '0'))

/-- Left-pad a character list with `'0'` up to width `w`. -/
def zfillPad (w : Nat) (cs : List Char) : List Char :=
  List.replicate (w - cs.length) '0' ++ cs

/-- Python `s.zfill(w)`: pad on the left with zeros to width `w`,
keeping a leading sign character in front of the inserted zeros. -/
def zfill (w : Nat) (s : String) : String :=
  match s.toList with
  | [] => String.mk (zfillPad w [])
  | c :: rest =>
      if c = '+' ∨ c = '-' then String.mk (c :: zfillPad (w - 1) rest)
      else String.mk (zfillPad w (c :: rest))

/-- Probe-key derivation as written in `get_songs`
(`app.py` 313-322): strip leading zeros, `zfill(6)`, then
`f"thumbnails/{formatted_id}.png"`. -/
def listingThumbnailPath (songId : String) : String :=
  let cleanId := stripLeadingZeros songId
  let formattedId := zfill 6 cleanId
  "thumbnails/" ++ formattedId ++ ".png"

/-- Thumbnail-key derivation as written in `api_get_thumbnail`
(`app.py` 602-614): strip leading zeros, `zfill(6)`, then
`f"thumbnails/{formatted_id}.png"`. -/
def apiThumbnailPath (songId : String) : String :=
  let cleanId := stripLeadingZeros songId
  let formattedId := zfill 6 cleanId
  "thumbnails/" ++ formattedId ++ ".png"

/-! ### Existence cache (`app.py` lines 187-199, 303-341) -/

/-- `app.thumbnail_existence_cache`: a dictionary from song id to the
cached existence verdict.  Modelled as an association list where
assignment prepends and lookup takes the first hit. -/
abbrev ExistenceCache := List (String × Bool)

/-- `cache.get(song_id)`. -/
def cacheLookup (c : ExistenceCache) (id : String) : Option Bool :=
  match c.find? (fun p => p.1 == id) with
  | some p => some p.2
  | none => none

/-- `cache[song_id] = b`. -/
def cacheInsert (c : ExistenceCache) (id : String) (b : Bool) : ExistenceCache :=
  (id, b) :: c

/-- The process-wide cache state: the map together with
`app.thumbnail_cache_timestamp` (absent before the first request). -/
structure CacheState where
  map : ExistenceCache
  timestamp : Option Nat
  deriving DecidableEq

/-- `app.py` 191-199: if the timestamp attribute exists and the cache is
older than 3600 seconds, discard the whole map and reset the timestamp;
if the attribute does not exist yet, set it. -/
def refreshCache (st : CacheState) (now : Nat) : CacheState :=
  match st.timestamp with
  | some ts =>
      if now - ts > 3600 then { map := [], timestamp := some now } else st
  | none => { map := st.map, timestamp := some now }

/-- Result of one existence check: the verdict, the updated map, and how
many `head_object` probes were issued (instrumentation for the spec's
probe-count property). -/
structure CheckResult where
  hasThumbnail : Bool
  cache : ExistenceCache
  probes : Nat
  deriving DecidableEq

/-- `app.py` 308-336 (and its copy at 378-397): consult the cache; on a
miss, derive the probe key, issue one `head_object` probe (an exception,
including a communication failure, yields `false`), and store the verdict. -/
def checkThumbnail (probe : String → Bool) (cache : ExistenceCache) (songId : String) :
    CheckResult :=
  match cacheLookup cache songId with
  | some b => ⟨b, cache, 0⟩
  | none =>
      let b := probe (listingThumbnailPath songId)
      ⟨b, cacheInsert cache songId b, 1⟩

/-! ### Filtered pagination engine (`app.py` lines 172-422, no-tag path) -/

/-- Supabase `.range(off, off + len - 1)` on the ordered query result. -/
def slice (catalog : List String) (off len : Nat) : List String :=
  (catalog.drop off).take len

/-- Result of the acceptance loop over one fetched window. -/
structure FilterResult where
  songs : List String
  cache : ExistenceCache
  probes : Nat
  deriving DecidableEq

/-- `app.py` 299-344 (and 372-400): walk the fetched window in order,
breaking as soon as `page_size` accepted songs are collected, keeping the
songs whose existence check passes. -/
def filterSongs (probe : String → Bool) (pageSize : Nat) :
    List String → List String → ExistenceCache → Nat → FilterResult
  | [], acc, cache, probes => ⟨acc, cache, probes⟩
  | s :: rest, acc, cache, probes =>
      if pageSize ≤ acc.length then ⟨acc, cache, probes⟩
      else
        let r := checkThumbnail probe cache s
        if r.hasThumbnail then
          filterSongs probe pageSize rest (acc ++ [s]) r.cache (probes + r.probes)
        else
          filterSongs probe pageSize rest acc r.cache (probes + r.probes)

/-- Result of the window-expansion `while` loop: the accepted songs, the
final cache map, the final (mutated) `offset` variable, and the number of
loop iterations (window expansions) performed. -/
structure ExpandResult where
  songs : List String
  cache : ExistenceCache
  offset : Nat
  iterations : Nat
  deriving DecidableEq

/-- `app.py` 347-407: `while thumbnails_only and len(songs) < page_size and
(offset + expanded_limit) < total_count`: fetch the next batch of
`page_size` rows at `offset + expanded_limit`, break if it is empty,
filter it onto `songs`, then set `offset = next_offset + next_limit`.
`expanded_limit` is fixed at `page_size * 3` on this path. -/
def expandLoop (catalog : List String) (probe : String → Bool) (pageSize totalCount : Nat)
    (songs : List String) (cache : ExistenceCache) (offset : Nat) (iters : Nat) :
    ExpandResult :=
  if h : songs.length < pageSize ∧ offset + pageSize * 3 < totalCount then
    if (slice catalog (offset + pageSize * 3) pageSize).isEmpty then
      ⟨songs, cache, offset, iters⟩
    else
      expandLoop catalog probe pageSize totalCount
        (filterSongs probe pageSize (slice catalog (offset + pageSize * 3) pageSize)
          songs cache 0).songs
        (filterSongs probe pageSize (slice catalog (offset + pageSize * 3) pageSize)
          songs cache 0).cache
        (offset + pageSize * 3 + pageSize) (iters + 1)
  else ⟨songs, cache, offset, iters⟩
termination_by totalCount - offset
decreasing_by omega

/-- The JSON body returned by `/api/songs` (`app.py` 410-419), restricted
to the fields the claims are about. -/
structure SongsResponse where
  songs : List String
  total : Nat
  offset : Nat
  limit : Nat
  hasMore : Bool
  deriving DecidableEq

/-- A `get_songs` request outcome: the response, the updated process-wide
cache state, and the number of window expansions performed
(instrumentation). -/
structure GetSongsResult where
  response : SongsResponse
  cacheState : CacheState
  expansions : Nat
  deriving DecidableEq

/-- `get_songs` (`app.py` 172-422) on the untagged path, with the request
order already applied to `catalog`.  `page_size = min(limit, 30)`; the
epoch refresh runs first; the initial window is `page_size * 3` rows when
`thumbnails_only` else `page_size`; then the acceptance loop, the
window-expansion loop, and the response assembly
(`songs[:page_size]`, `total = len(songs)`,
`has_more = len(songs) > page_size or (offset + len(songs)) < total_count`). -/
def getSongs (catalog : List String) (probe : String → Bool) (st : CacheState) (now : Nat)
    (limitParam offsetParam : Nat) (thumbnailsOnly : Bool) : GetSongsResult :=
  let pageSize := min limitParam 30
  let st1 := refreshCache st now
  let totalCount := catalog.length
  let expandedLimit := if thumbnailsOnly then pageSize * 3 else pageSize
  let initial := slice catalog offsetParam expandedLimit
  if thumbnailsOnly then
    let fr := filterSongs probe pageSize initial [] st1.map 0
    let er := expandLoop catalog probe pageSize totalCount fr.songs fr.cache offsetParam 0
    { response :=
        { songs := er.songs.take pageSize
          total := er.songs.length
          offset := er.offset
          limit := pageSize
          hasMore := decide (pageSize < er.songs.length)
            || decide (er.offset + er.songs.length < totalCount) }
      cacheState := { map := er.cache, timestamp := st1.timestamp }
      expansions := er.iterations }
  else
    { response :=
        { songs := initial.take pageSize
          total := initial.length
          offset := offsetParam
          limit := pageSize
          hasMore := decide (pageSize < initial.length)
            || decide (offsetParam + initial.length < totalCount) }
      cacheState := st1
      expansions := 0 }

/-! ### Range-aware streaming proxy (`app.py` lines 424-550) -/

/-- The catalog row consulted by `stream_song`: only `storage_path`
matters to the proxy (`None` models a row missing the key). -/
structure SongRecord where
  storagePath : Option String
  deriving DecidableEq

/-- The upstream (B2) HTTP answer once a connection succeeded. -/
structure UpstreamResponse where
  status : Nat
  contentRange : Option String
  contentLength : Option String
  acceptRanges : Option String
  body : List Nat
  deriving DecidableEq

/-- What the client receives: either a streamed response with the listed
status/headers/body, or a JSON error body with the given status. -/
inductive StreamOutcome where
  | response (status : Nat) (contentType : String) (contentLength : Option String)
      (contentRange : Option String) (acceptRanges : Option String) (body : List Nat)
  | errorJson (status : Nat) (message : String)
  deriving DecidableEq

/-- How many calls the request made to each collaborator. -/
structure CallTrace where
  catalogCalls : Nat
  signCalls : Nat
  upstreamCalls : Nat
  deriving DecidableEq

/-- The collaborators of `stream_song`: the Supabase lookup, the
presigned-URL issuer, and the upstream `requests.get` (whose `.error`
case models a raised exception, e.g. a connection failure). -/
structure StreamDeps where
  catalog : String → Option SongRecord
  sign : String → Except String String
  upstream : String → Option String → Except String UpstreamResponse

/-- Python `song_id.split(':')[0]` (`app.py` 428-429). -/
def splitColon (s : String) : String :=
  String.mk (s.toList.takeWhile (fun c => c != ':'))

/-- Python `s.lower()` restricted to what `.endswith` needs. -/
def lowerAscii (s : String) : String :=
  String.mk (s.toList.map Char.toLower)

/-- Python `s.endswith(suffix)` on character lists. -/
def strEndsWith (s suffix : String) : Bool :=
  suffix.toList.isSuffixOf s.toList

/-- `app.py` 460-468: content type from the storage path's extension. -/
def contentTypeFor (path : String) : String :=
  if strEndsWith (lowerAscii path) ".mp3" then "audio/mpeg"
  else if strEndsWith (lowerAscii path) ".m4a" then "audio/mp4"
  else if strEndsWith (lowerAscii path) ".aac" then "audio/aac"
  else "audio/mpeg"

/-- Whether an outcome is a server-error (5xx) JSON body. -/
def isServerErrorOutcome : StreamOutcome → Bool
  | .errorJson status _ => 500 ≤ status
  | .response _ _ _ _ _ _ => false

/-- `stream_song` (`app.py` 424-550): strip `:suffix` from the id; answer
`HEAD` probes for the sentinel ids `"test"` and `"1"` synthetically
(status 200, `Content-Length: 0`, `Accept-Ranges: bytes`) before any
collaborator is contacted; otherwise look the song up (404 when absent,
500 when `storage_path` is missing), sign the key, `requests.get` the
signed URL forwarding the `Range` header, and relay: status 206 copies
`Content-Range`/`Content-Length`/`Accept-Ranges` from upstream, any other
upstream status is relayed with Flask's default status 200,
`Content-Length` when present and `Accept-Ranges: bytes`.  An exception
while signing or connecting yields the 500 streaming-error body. -/
def streamSong (deps : StreamDeps) (method : String) (rangeHeader : Option String)
    (songIdRaw : String) : StreamOutcome × CallTrace :=
  let songId := splitColon songIdRaw
  if method = "HEAD" ∧ (songId = "test" ∨ songId = "1") then
    (.response 200 "audio/mpeg" (some "0") none (some "bytes") [], ⟨0, 0, 0⟩)
  else
    match deps.catalog songId with
    | none => (.errorJson 404 "Song not found", ⟨1, 0, 0⟩)
    | some record =>
        match record.storagePath with
        | none => (.errorJson 500 "Invalid song data - missing storage path", ⟨1, 0, 0⟩)
        | some path =>
            let ct := contentTypeFor path
            match deps.sign path with
            | .error _ => (.errorJson 500 "Streaming error", ⟨1, 1, 0⟩)
            | .ok url =>
                match deps.upstream url rangeHeader with
                | .error _ => (.errorJson 500 "Streaming error", ⟨1, 1, 1⟩)
                | .ok resp =>
                    if resp.status = 206 then
                      (.response 206 ct resp.contentLength resp.contentRange
                        resp.acceptRanges resp.body, ⟨1, 1, 1⟩)
                    else
                      (.response 200 ct resp.contentLength none (some "bytes")
                        resp.body, ⟨1, 1, 1⟩)

/-! ### Disk thumbnail cache (`app.py` lines 552-665) -/

/-- The comparison used by `cache_files.sort(key=lambda f: getmtime(f))`:
ascending modified time. -/
def mtimeLe (a b : String × Nat) : Bool := a.2 ≤ b.2

/-- The eviction sweep (`app.py` 570-586): when more than 1000 files are
cached, sort by modified time ascending and delete the oldest 200; a file
whose removal fails (`deleteOk` is `false`) is skipped and survives.  The
result is the list of surviving files. -/
def evictSweep (files : List (String × Nat)) (deleteOk : String → Bool) :
    List (String × Nat) :=
  if 1000 < files.length then
    (((files.mergeSort mtimeLe).take 200).filter (fun f => !(deleteOk f.1)))
      ++ (files.mergeSort mtimeLe).drop 200
  else files

/-- `os.path.exists` + `os.path.getmtime` on the cache directory. -/
def findMtime (files : List (String × Nat)) (name : String) : Option Nat :=
  match files.find? (fun p => p.1 == name) with
  | some p => some p.2
  | none => none

/-- Writing (or overwriting) a cache file, stamping it `now`. -/
def setMtime (files : List (String × Nat)) (name : String) (now : Nat) :
    List (String × Nat) :=
  (name, now) :: files.filter (fun p => !(p.1 == name))

/-- The collaborators and the fallible local I/O of `api_get_thumbnail`.
`readOk p = false` models `send_file(p)` raising, `writeOk p = false`
models the cache write raising, `listOk = false` models `os.listdir`
raising, and `fetch` is `requests.get` on the signed URL (its `.error`
case a raised exception/timeout, its `.ok` case the HTTP status and body). -/
structure ThumbDeps where
  sign : String → Except String String
  fetch : String → Except String (Nat × List Nat)
  writeOk : String → Bool
  readOk : String → Bool
  listOk : Bool
  deleteOk : String → Bool
  placeholderExists : Bool

/-- What the thumbnail endpoint hands back: a file streamed as
`image/png`, the embedded 1x1 PNG bytes, or an unhandled exception that
surfaces as a server error. -/
inductive ThumbOutcome where
  | sentFile (path : String)
  | sentBytes
  | serverError
  deriving DecidableEq

/-- `app.py` 653-665: serve `static/placeholder.png` when it exists (this
`send_file` is outside every `try`), else the embedded 1x1 PNG. -/
def placeholderResponse (deps : ThumbDeps) (files : List (String × Nat)) :
    ThumbOutcome × List (String × Nat) :=
  if deps.placeholderExists then
    if deps.readOk "static/placeholder.png" then (.sentFile "static/placeholder.png", files)
    else (.serverError, files)
  else (.sentBytes, files)

/-- `app.py` 602-651: derive the key, sign it, download with a 3s
timeout; on status 200 write the cache file and `send_file` it (both
inside the `try`, so a failure falls through to the placeholder); any
other status or any exception falls through to the placeholder. -/
def fetchThumbnail (deps : ThumbDeps) (files : List (String × Nat)) (now : Nat)
    (songId cachePath : String) : ThumbOutcome × List (String × Nat) :=
  match deps.sign (apiThumbnailPath songId) with
  | .error _ => placeholderResponse deps files
  | .ok url =>
      match deps.fetch url with
      | .error _ => placeholderResponse deps files
      | .ok (status, _content) =>
          if status = 200 then
            if deps.writeOk cachePath then
              let files2 := setMtime files cachePath now
              if deps.readOk cachePath then (.sentFile cachePath, files2)
              else placeholderResponse deps files2
            else placeholderResponse deps files
          else placeholderResponse deps files

/-- `api_get_thumbnail` (`app.py` 552-665): run the eviction sweep (all
its failures swallowed), then serve the cached file when it is younger
than 86400 seconds — this `send_file` (line 598) is outside every `try`,
so a read failure there surfaces as a server error — and otherwise fetch,
cache and serve, falling back to the placeholder. -/
def apiGetThumbnail (deps : ThumbDeps) (cacheFiles : List (String × Nat)) (now : Nat)
    (songId : String) : ThumbOutcome × List (String × Nat) :=
  let files1 := if deps.listOk then evictSweep cacheFiles deps.deleteOk else cacheFiles
  let cachePath := songId ++ ".png"
  match findMtime files1 cachePath with
  | some t =>
      if now - t < 86400 then
        if deps.readOk cachePath then (.sentFile cachePath, files1)
        else (.serverError, files1)
      else fetchThumbnail deps files1 now songId cachePath
  | none => fetchThumbnail deps files1 now songId cachePath

/-! ### Specification-level predicates used by the claims -/

/-- The existence cache agrees with the store: every cached verdict is
what a probe of the derived key would answer. -/
def CacheConsistent (probe : String → Bool) (c : ExistenceCache) : Prop :=
  ∀ id b, cacheLookup c id = some b → b = probe (listingThumbnailPath id)

/-- No id of the list is cached as existing. -/
def NoTrueEntryFor (c : ExistenceCache) (ids : List String) : Prop :=
  ∀ s ∈ ids, cacheLookup c s ≠ some true

/-- What the eviction sweep guarantees for an over-capacity directory:
with no deletion failures exactly the 200 oldest-by-mtime files are
removed; every removed file is at most as recent as every survivor; and a
file whose deletion fails survives the sweep instead of failing it. -/
def EvictSpec (files : List (String × Nat)) : Prop :=
  (∀ g : String → Bool, (∀ f ∈ files, g f.1 = true) →
      evictSweep files g = (files.mergeSort mtimeLe).drop 200)
  ∧ (∀ removed ∈ (files.mergeSort mtimeLe).take 200,
      ∀ kept ∈ (files.mergeSort mtimeLe).drop 200, removed.2 ≤ kept.2)
  ∧ (∀ g : String → Bool, ∀ f ∈ (files.mergeSort mtimeLe).take 200,
      g f.1 = false → f ∈ evictSweep files g)

/-- Concrete over-capacity cache directory used to witness the eviction
claim: 1001 files with distinct names and ascending modified times. -/
def overfullCacheDir : List (String × Nat) :=
  (List.range 1001).map (fun i => (toString i, i))

/-- Concrete streaming collaborators: a catalog holding one song `"5"`
stored at `"a.mp3"`, signing succeeding, and the upstream store answering
status 403 with a one-byte body. -/
def c2StreamDeps : StreamDeps where
  catalog := fun i => if i = "5" then some ⟨some "a.mp3"⟩ else none
  sign := fun _ => .ok "u"
  upstream := fun _ _ => .ok ⟨403, none, none, none, [1]⟩

/-- Concrete thumbnail collaborators where the store works but every
local `send_file` fails. -/
def thumbReadFailDeps : ThumbDeps where
  sign := fun _ => .ok "u"
  fetch := fun _ => .ok (200, [])
  writeOk := fun _ => true
  readOk := fun _ => false
  listOk := true
  deleteOk := fun _ => true
  placeholderExists := true

/-- Concrete thumbnail collaborators where every store call and every
cache-maintenance operation fails but local file sends succeed. -/
def thumbStoreFailDeps : ThumbDeps where
  sign := fun _ => .error "store down"
  fetch := fun _ => .error "store down"
  writeOk := fun _ => false
  readOk := fun _ => true
  listOk := false
  deleteOk := fun _ => false
  placeholderExists := false

/-! ### Lemmas about the existence cache -/

theorem cacheLookup_insert_self (c : ExistenceCache) (id : String) (b : Bool) :
    cacheLookup (cacheInsert c id b) id = some b := by
  simp [cacheLookup, cacheInsert]

theorem cacheLookup_insert_of_ne (c : ExistenceCache) {id x : String} (b : Bool)
    (h : id ≠ x) : cacheLookup (cacheInsert c id b) x = cacheLookup c x := by
  simp [cacheLookup, cacheInsert, List.find?_cons, h]

theorem checkThumbnail_verdict {probe : String → Bool} {c : ExistenceCache}
    (hc : CacheConsistent probe c) (s : String) :
    (checkThumbnail probe c s).hasThumbnail = probe (listingThumbnailPath s) := by
  cases h : cacheLookup c s with
  | none => simp [checkThumbnail, h]
  | some b => simpa [checkThumbnail, h] using hc s b h

theorem checkThumbnail_consistent {probe : String → Bool} {c : ExistenceCache}
    (hc : CacheConsistent probe c) (s : String) :
    CacheConsistent probe (checkThumbnail probe c s).cache := by
  cases h : cacheLookup c s with
  | some b => simpa [checkThumbnail, h] using hc
  | none =>
      intro id b hl
      simp only [checkThumbnail, h] at hl
      by_cases hs : s = id
      · subst hs
        rw [cacheLookup_insert_self] at hl
        exact (Option.some.inj hl).symm
      · rw [cacheLookup_insert_of_ne _ _ hs] at hl
        exact hc id b hl

theorem checkThumbnail_false_verdict {probe : String → Bool} {c : ExistenceCache}
    {s : String} (hp : probe (listingThumbnailPath s) = false)
    (hn : cacheLookup c s ≠ some true) :
    (checkThumbnail probe c s).hasThumbnail = false := by
  cases h : cacheLookup c s with
  | none => simp [checkThumbnail, h, hp]
  | some b =>
      cases b with
      | true => exact absurd h hn
      | false => simp [checkThumbnail, h]

theorem checkThumbnail_noTrue {probe : String → Bool} {c : ExistenceCache}
    {s : String} {ids : List String} (hp : probe (listingThumbnailPath s) = false)
    (hn : NoTrueEntryFor c ids) :
    NoTrueEntryFor (checkThumbnail probe c s).cache ids := by
  cases h : cacheLookup c s with
  | some b => simpa [checkThumbnail, h] using hn
  | none =>
      intro x hx
      simp only [checkThumbnail, h]
      by_cases hs : s = x
      · subst hs
        rw [cacheLookup_insert_self, hp]
        simp
      · rw [cacheLookup_insert_of_ne _ _ hs]
        exact hn x hx

/-! ### Lemmas about the acceptance loop -/

theorem filterSongs_allfail (probe : String → Bool) (p : Nat) (ids : List String)
    (hall : ∀ s ∈ ids, probe (listingThumbnailPath s) = false) :
    ∀ (l acc : List String) (c : ExistenceCache) (pr : Nat),
      (∀ s ∈ l, s ∈ ids) → NoTrueEntryFor c ids →
      (filterSongs probe p l acc c pr).songs = acc
        ∧ NoTrueEntryFor (filterSongs probe p l acc c pr).cache ids := by
  intro l
  induction l with
  | nil => intro acc c pr _ hn; exact ⟨rfl, hn⟩
  | cons s rest ih =>
      intro acc c pr hsub hn
      by_cases hfull : p ≤ acc.length
      · constructor
        · simp [filterSongs, if_pos hfull]
        · simpa [filterSongs, if_pos hfull] using hn
      · have hs : s ∈ ids := hsub s (by simp)
        have hv := checkThumbnail_false_verdict (hall s hs) (hn s hs)
        have hn' := checkThumbnail_noTrue (c := c) (hall s hs) hn
        simp only [filterSongs, if_neg hfull, hv, if_neg, Bool.false_eq_true, ite_false]
        exact ih acc (checkThumbnail probe c s).cache
          (pr + (checkThumbnail probe c s).probes) (fun t ht => hsub t (by simp [ht])) hn'

theorem filterSongs_length_le (probe : String → Bool) (p : Nat) :
    ∀ (l acc : List String) (c : ExistenceCache) (pr : Nat), acc.length ≤ p →
      (filterSongs probe p l acc c pr).songs.length ≤ p := by
  intro l
  induction l with
  | nil => intro acc c pr hle; simpa [filterSongs] using hle
  | cons s rest ih =>
      intro acc c pr hle
      by_cases hfull : p ≤ acc.length
      · simpa [filterSongs, if_pos hfull] using hle
      · simp only [filterSongs, if_neg hfull]
        cases hv : (checkThumbnail probe c s).hasThumbnail with
        | true =>
            simp only [if_pos rfl, ite_true]
            exact ih (acc ++ [s]) (checkThumbnail probe c s).cache
              (pr + (checkThumbnail probe c s).probes) (by simp; omega)
        | false =>
            simp only [Bool.false_eq_true, ite_false]
            exact ih acc (checkThumbnail probe c s).cache
              (pr + (checkThumbnail probe c s).probes) hle

theorem filterSongs_length_consistent (probe : String → Bool) (p : Nat) :
    ∀ (l acc : List String) (c : ExistenceCache) (pr : Nat),
      CacheConsistent probe c → acc.length ≤ p →
      (filterSongs probe p l acc c pr).songs.length
          = min p (acc.length + (l.filter (fun s => probe (listingThumbnailPath s))).length)
        ∧ CacheConsistent probe (filterSongs probe p l acc c pr).cache := by
  intro l
  induction l with
  | nil =>
      intro acc c pr hc hle
      constructor
      · simp [filterSongs]; omega
      · simpa [filterSongs] using hc
  | cons s rest ih =>
      intro acc c pr hc hle
      by_cases hfull : p ≤ acc.length
      · have hacc : acc.length = p := le_antisymm hle hfull
        constructor
        · simp [filterSongs, if_pos hfull, hacc]
        · simpa [filterSongs, if_pos hfull] using hc
      · have hv := checkThumbnail_verdict hc s
        have hc' := checkThumbnail_consistent hc s
        simp only [filterSongs, if_neg hfull, hv]
        cases hp : probe (listingThumbnailPath s) with
        | true =>
            simp only [ite_true]
            have := ih (acc ++ [s]) (checkThumbnail probe c s).cache
              (pr + (checkThumbnail probe c s).probes) hc' (by simp; omega)
            rw [this.1]
            refine ⟨?_, this.2⟩
            simp [List.filter_cons, hp]
            omega
        | false =>
            simp only [Bool.false_eq_true, ite_false]
            have := ih acc (checkThumbnail probe c s).cache
              (pr + (checkThumbnail probe c s).probes) hc' hle
            rw [this.1]
            refine ⟨?_, this.2⟩
            simp [List.filter_cons, hp]

/-! ### Lemmas about the window-expansion loop -/

theorem expandLoop_stop {catalog : List String} {probe : String → Bool}
    {p tc : Nat} {songs : List String} {c : ExistenceCache} {off it : Nat}
    (h : ¬(songs.length < p ∧ off + p * 3 < tc)) :
    expandLoop catalog probe p tc songs c off it = ⟨songs, c, off, it⟩ := by
  rw [expandLoop, dif_neg h]

theorem expandLoop_allfail_aux (catalog : List String) (probe : String → Bool)
    (p tc : Nat) (hall : ∀ s ∈ catalog, probe (listingThumbnailPath s) = false) :
    ∀ (n off : Nat) (songs : List String) (c : ExistenceCache) (it : Nat),
      tc - off ≤ n → NoTrueEntryFor c catalog →
      (expandLoop catalog probe p tc songs c off it).songs = songs
        ∧ (expandLoop catalog probe p tc songs c off it).iterations ≤ it + (tc - off) := by
  intro n
  induction n with
  | zero =>
      intro off songs c it hn _
      have hg : ¬(songs.length < p ∧ off + p * 3 < tc) := by omega
      rw [expandLoop_stop hg]
      exact ⟨rfl, by show it ≤ it + (tc - off); omega⟩
  | succ n ih =>
      intro off songs c it hn hnt
      by_cases hg : songs.length < p ∧ off + p * 3 < tc
      · obtain ⟨hg1, hg2⟩ := hg
        rw [expandLoop, dif_pos ⟨hg1, hg2⟩]
        by_cases hb : (slice catalog (off + p * 3) p).isEmpty
        · rw [if_pos hb]
          exact ⟨rfl, by show it ≤ it + (tc - off); omega⟩
        · rw [if_neg hb]
          have hsub : ∀ s ∈ slice catalog (off + p * 3) p, s ∈ catalog := by
            intro s hs
            exact List.mem_of_mem_drop (List.mem_of_mem_take hs)
          have hfa := filterSongs_allfail probe p catalog hall
            (slice catalog (off + p * 3) p) songs c 0 hsub hnt
          have hrec := ih (off + p * 3 + p)
            (filterSongs probe p (slice catalog (off + p * 3) p) songs c 0).songs
            (filterSongs probe p (slice catalog (off + p * 3) p) songs c 0).cache
            (it + 1) (by omega) hfa.2
          refine ⟨hrec.1.trans hfa.1, ?_⟩
          have h2 := hrec.2
          omega
      · rw [expandLoop_stop hg]
        exact ⟨rfl, by show it ≤ it + (tc - off); omega⟩

theorem expandLoop_length_le (catalog : List String) (probe : String → Bool)
    (p tc : Nat) :
    ∀ (n off : Nat) (songs : List String) (c : ExistenceCache) (it : Nat),
      tc - off ≤ n → songs.length ≤ p →
      (expandLoop catalog probe p tc songs c off it).songs.length ≤ p := by
  intro n
  induction n with
  | zero =>
      intro off songs c it hn hle
      have hg : ¬(songs.length < p ∧ off + p * 3 < tc) := by omega
      rw [expandLoop_stop hg]
      exact hle
  | succ n ih =>
      intro off songs c it hn hle
      by_cases hg : songs.length < p ∧ off + p * 3 < tc
      · obtain ⟨hg1, hg2⟩ := hg
        rw [expandLoop, dif_pos ⟨hg1, hg2⟩]
        by_cases hb : (slice catalog (off + p * 3) p).isEmpty
        · rw [if_pos hb]
          exact hle
        · rw [if_neg hb]
          exact ih (off + p * 3 + p) _ _ (it + 1) (by omega)
            (filterSongs_length_le probe p (slice catalog (off + p * 3) p) songs c 0 (by omega))
      · rw [expandLoop_stop hg]
        exact hle

/-! ### Lemmas about the epoch refresh -/

theorem refreshCache_map_cases (st : CacheState) (now : Nat) :
    (refreshCache st now).map = st.map ∨ (refreshCache st now).map = [] := by
  rcases st with ⟨m, ts⟩
  cases ts with
  | none => left; rfl
  | some t =>
      by_cases h : now - t > 3600
      · right; simp [refreshCache, h]
      · left; simp [refreshCache, h]

theorem refreshCache_stale {st : CacheState} {now ts : Nat}
    (hts : st.timestamp = some ts) (h : now - ts > 3600) :
    refreshCache st now = ⟨[], some now⟩ := by
  rcases st with ⟨m, t⟩
  simp only at hts
  subst hts
  simp [refreshCache, h]

theorem refreshCache_rigid (m : ExistenceCache) (now : Nat) :
    refreshCache ⟨m, some now⟩ now = ⟨m, some now⟩ := by
  simp [refreshCache]

/-! ### Length of zero-padded ids -/

theorem zfill_length {w : Nat} (s : String) (h : s.length ≤ w) :
    (zfill w s).length = w := by
  have hlen : s.toList.length ≤ w := h
  unfold zfill
  cases hs : s.toList with
  | nil =>
      show (String.mk (zfillPad w [])).length = w
      simp [zfillPad]
  | cons c rest =>
      rw [hs] at hlen
      show (if c = '+' ∨ c = '-' then String.mk (c :: zfillPad (w - 1) rest)
        else String.mk (zfillPad w (c :: rest))).length = w
      by_cases hc : c = '+' ∨ c = '-'
      · rw [if_pos hc]
        show (String.mk (c :: zfillPad (w - 1) rest)).length = w
        simp only [String.length, zfillPad, List.length_cons, List.length_append,
          List.length_replicate]
        simp at hlen
        omega
      · rw [if_neg hc]
        show (String.mk (zfillPad w (c :: rest))).length = w
        simp only [String.length, zfillPad, List.length_cons, List.length_append,
          List.length_replicate]
        simp at hlen
        omega

/-! ### The thumbnail endpoint never errors when local sends succeed -/

theorem placeholderResponse_no_error {deps : ThumbDeps}
    (hr : ∀ q, deps.readOk q = true) (files : List (String × Nat)) :
    (placeholderResponse deps files).1 ≠ ThumbOutcome.serverError := by
  cases hpe : deps.placeholderExists <;> simp [placeholderResponse, hpe, hr]

theorem fetchThumbnail_no_error {deps : ThumbDeps}
    (hr : ∀ q, deps.readOk q = true) (files : List (String × Nat)) (now : Nat)
    (songId cachePath : String) :
    (fetchThumbnail deps files now songId cachePath).1 ≠ ThumbOutcome.serverError := by
  simp only [fetchThumbnail]
  repeat' split
  all_goals first
    | exact placeholderResponse_no_error hr _
    | simp

/-! ### The claims -/

/-- C6: repeated existence-filter checks of one item ID within one cache
epoch return the same boolean and issue no additional probe against the
object store after the first check: a second `checkThumbnail` of the same
ID returns the verdict of the first, leaves the map unchanged, and
performs zero probes. -/
theorem claim_c6_idempotent_exists (probe : String → Bool) (cache : ExistenceCache)
    (songId : String) :
    checkThumbnail probe (checkThumbnail probe cache songId).cache songId
      = ⟨(checkThumbnail probe cache songId).hasThumbnail,
         (checkThumbnail probe cache songId).cache, 0⟩ := by
  cases h : cacheLookup cache songId with
  | some b => simp [checkThumbnail, h]
  | none => simp [checkThumbnail, h, cacheLookup_insert_self]

/-- C7: for every item ID string the object-store probe key is derived by
stripping leading zeros and left-padding with zeros to width 6, the
existence probe of the listing path and the thumbnail fetch use the same
derivation, and whenever the stripped ID has at most 6 digits the padded
ID is exactly 6 digits (key `thumbnails/XXXXXX.png`). -/
theorem claim_c7_key_derivation (id : String) :
    listingThumbnailPath id = apiThumbnailPath id
    ∧ listingThumbnailPath id
        = "thumbnails/" ++ zfill 6 (stripLeadingZeros id) ++ ".png"
    ∧ ((stripLeadingZeros id).length ≤ 6 → (zfill 6 (stripLeadingZeros id)).length = 6) :=
  ⟨rfl, rfl, zfill_length (stripLeadingZeros id)⟩

/-- Witness for C7 at the concrete ID `"0042"`. -/
theorem claim_c7_witness :
    (stripLeadingZeros "0042").length ≤ 6
    ∧ listingThumbnailPath "0042" = apiThumbnailPath "0042"
    ∧ (zfill 6 (stripLeadingZeros "0042")).length = 6 :=
  ⟨by decide, (claim_c7_key_derivation "0042").1,
    (claim_c7_key_derivation "0042").2.2 (by decide)⟩

/-- C9: a `HEAD` request to the stream endpoint carrying a reserved
sentinel ID (`"test"` or `"1"`) is answered synthetically with status
200, `Content-Length: 0` and `Accept-Ranges: bytes`, and no call is made
to the catalog service, the signer, or the object store. -/
theorem claim_c9_head_sentinel (deps : StreamDeps) (rangeHeader : Option String)
    (songIdRaw : String) (h : songIdRaw = "test" ∨ songIdRaw = "1") :
    streamSong deps "HEAD" rangeHeader songIdRaw
      = (.response 200 "audio/mpeg" (some "0") none (some "bytes") [], ⟨0, 0, 0⟩) := by
  rcases h with h | h <;> subst h <;> rfl

/-- Witness for C9 at the sentinel ID `"test"` with collaborators that
would fail if contacted. -/
theorem claim_c9_witness :
    ("test" = "test" ∨ "test" = "1")
    ∧ streamSong ⟨fun _ => none, fun _ => .error "down", fun _ _ => .error "down"⟩
        "HEAD" none "test"
        = (.response 200 "audio/mpeg" (some "0") none (some "bytes") [], ⟨0, 0, 0⟩) :=
  ⟨Or.inl rfl,
    claim_c9_head_sentinel ⟨fun _ => none, fun _ => .error "down", fun _ _ => .error "down"⟩
      none "test" (Or.inl rfl)⟩

/-- C2 counterexample: with the upstream store answering status 403
(neither 2xx nor 206) after the fetch, the proxy does NOT surface a 5xx
error body: it relays the upstream body under status 200. -/
theorem claim_c2_counterexample :
    c2StreamDeps.upstream "u" none = .ok ⟨403, none, none, none, [1]⟩
    ∧ (streamSong c2StreamDeps "GET" none "5").1
        = .response 200 "audio/mpeg" none none (some "bytes") [1]
    ∧ isServerErrorOutcome (streamSong c2StreamDeps "GET" none "5").1 = false :=
  ⟨rfl, by decide, by decide⟩

/-- C2 (amended): an exception while connecting to the upstream store
yields a 500 JSON error body, but an upstream response with any non-206
status (including every non-2xx status) is relayed to the client under
status 200 with the upstream body, not surfaced as a 5xx. -/
theorem claim_c2_amended (deps : StreamDeps) (method : String)
    (rangeHeader : Option String) (songIdRaw : String) (record : SongRecord)
    (path url : String)
    (hs : ¬(method = "HEAD" ∧ (splitColon songIdRaw = "test" ∨ splitColon songIdRaw = "1")))
    (hcat : deps.catalog (splitColon songIdRaw) = some record)
    (hpath : record.storagePath = some path)
    (hsign : deps.sign path = .ok url) :
    (∀ resp : UpstreamResponse,
        deps.upstream url rangeHeader = .ok resp → resp.status ≠ 206 →
        (streamSong deps method rangeHeader songIdRaw).1
          = .response 200 (contentTypeFor path) resp.contentLength none
              (some "bytes") resp.body)
    ∧ (∀ e : String, deps.upstream url rangeHeader = .error e →
        (streamSong deps method rangeHeader songIdRaw).1
          = .errorJson 500 "Streaming error") := by
  constructor
  · intro resp hup h206
    simp [streamSong, hs, hcat, hpath, hsign, hup, h206]
  · intro e hup
    simp [streamSong, hs, hcat, hpath, hsign, hup]

/-- Witness for C2 (amended) at the concrete collaborators of
`c2StreamDeps` and the upstream 403 answer. -/
theorem claim_c2_witness :
    (¬("GET" = "HEAD" ∧ (splitColon "5" = "test" ∨ splitColon "5" = "1")))
    ∧ c2StreamDeps.catalog (splitColon "5") = some ⟨some "a.mp3"⟩
    ∧ c2StreamDeps.sign "a.mp3" = .ok "u"
    ∧ (streamSong c2StreamDeps "GET" none "5").1
        = .response 200 (contentTypeFor "a.mp3") none none (some "bytes") [1] :=
  ⟨by decide, by decide, rfl,
    (claim_c2_amended c2StreamDeps "GET" none "5" ⟨some "a.mp3"⟩ "a.mp3" "u"
        (by decide) rfl rfl rfl).1
      ⟨403, none, none, none, [1]⟩ rfl (by decide)⟩

/-- C5: when the cache epoch is stale (age strictly greater than 3600
seconds), the whole map is cleared and the epoch timestamp reset before
any lookup of the request is serviced: the refreshed state is exactly the
empty map stamped `now`, every lookup on it misses, and the whole listing
request behaves as if it had started from the empty cache. -/
theorem claim_c5_epoch_reset (st : CacheState) (now ts : Nat)
    (hts : st.timestamp = some ts) (hstale : now - ts > 3600) :
    refreshCache st now = ⟨[], some now⟩
    ∧ (∀ id, cacheLookup (refreshCache st now).map id = none)
    ∧ (∀ (catalog : List String) (probe : String → Bool) (l o : Nat) (t : Bool),
        getSongs catalog probe st now l o t
          = getSongs catalog probe ⟨[], some now⟩ now l o t) := by
  have hre := refreshCache_stale hts hstale
  refine ⟨hre, ?_, ?_⟩
  · intro id
    rw [hre]
    rfl
  · intro catalog probe l o t
    simp only [getSongs, hre, refreshCache_rigid]

/-- Witness for C5: a stale cache holding `("9", true)` at epoch 0,
looked at 4000 seconds. -/
theorem claim_c5_witness :
    ({ map := [("9", true)], timestamp := some 0 } : CacheState).timestamp = some 0
    ∧ 4000 - 0 > 3600
    ∧ refreshCache ⟨[("9", true)], some 0⟩ 4000 = ⟨[], some 4000⟩ :=
  ⟨rfl, by decide, (claim_c5_epoch_reset ⟨[("9", true)], some 0⟩ 4000 0 rfl (by decide)).1⟩

/-- C8: for a cache directory holding more than 1000 files, the sweep run
before serving a thumbnail deletes exactly the 200 oldest-by-mtime files
(when no deletion fails), every surviving file is at least as recent as
every removed one, and a file whose deletion fails is skipped — it
survives and the sweep still returns. -/
theorem claim_c8_eviction (files : List (String × Nat)) (h : 1000 < files.length) :
    EvictSpec files := by
  have htrans : ∀ a b c : String × Nat,
      mtimeLe a b = true → mtimeLe b c = true → mtimeLe a c = true := by
    intro a b c hab hbc
    simp [mtimeLe] at *
    omega
  have htotal : ∀ a b : String × Nat, (mtimeLe a b || mtimeLe b a) = true := by
    intro a b
    simp [mtimeLe]
    omega
  have hperm := List.mergeSort_perm files mtimeLe
  have hsorted := List.sorted_mergeSort htrans htotal files
  refine ⟨?_, ?_, ?_⟩
  · intro g hg
    unfold evictSweep
    rw [if_pos h]
    have hnil : ((files.mergeSort mtimeLe).take 200).filter (fun f => !(g f.1)) = [] := by
      apply List.filter_eq_nil_iff.mpr
      intro a ha
      have ham : a ∈ files := hperm.mem_iff.mp (List.mem_of_mem_take ha)
      simp [hg a ham]
    rw [hnil]
    rfl
  · have hp : List.Pairwise (fun a b => mtimeLe a b = true)
        ((files.mergeSort mtimeLe).take 200 ++ (files.mergeSort mtimeLe).drop 200) := by
      rw [List.take_append_drop]
      exact hsorted
    intro a ha b hb
    have := (List.pairwise_append.mp hp).2.2 a ha b hb
    simpa [mtimeLe] using this
  · intro g f hf hgf
    unfold evictSweep
    rw [if_pos h]
    apply List.mem_append_left
    exact List.mem_filter.mpr ⟨hf, by simp [hgf]⟩

/-- Witness for C8 at a concrete directory of 1001 files. -/
theorem claim_c8_witness : 1000 < overfullCacheDir.length ∧ EvictSpec overfullCacheDir :=
  ⟨by simp [overfullCacheDir], claim_c8_eviction overfullCacheDir (by simp [overfullCacheDir])⟩

/-- C10 counterexample: with a fresh cached file present but the
`send_file` of the cached-file path failing (a disk-cache I/O error), the
endpoint surfaces a server error instead of PNG bytes: the `send_file` on
the fresh-cache path sits outside every `try`. -/
theorem claim_c10_counterexample :
    (apiGetThumbnail thumbReadFailDeps [("7.png", 100)] 200 "7").1
      = ThumbOutcome.serverError := by
  decide

/-- C10 (amended): provided serving a local file succeeds, the thumbnail
endpoint never returns an error status for any internal failure — store
unreachable, object missing, non-200 store status, signing error, cache
write/list/delete failures all fall back to the cached, fetched,
placeholder or embedded PNG; only a failing local `send_file` (fresh
cached file or placeholder file) escapes every handler. -/
theorem claim_c10_amended (deps : ThumbDeps) (hr : ∀ q, deps.readOk q = true)
    (cacheFiles : List (String × Nat)) (now : Nat) (songId : String) :
    (apiGetThumbnail deps cacheFiles now songId).1 ≠ ThumbOutcome.serverError := by
  simp only [apiGetThumbnail]
  repeat' split
  all_goals first
    | exact fetchThumbnail_no_error hr _ _ _ _
    | simp_all [hr]

/-- Witness for C10 (amended): every store call and cache-maintenance
operation fails, local sends succeed, and no server error escapes. -/
theorem claim_c10_witness :
    (∀ q, thumbStoreFailDeps.readOk q = true)
    ∧ (apiGetThumbnail thumbStoreFailDeps [] 0 "7").1 ≠ ThumbOutcome.serverError :=
  ⟨fun _ => rfl, claim_c10_amended thumbStoreFailDeps (fun _ => rfl) [] 0 "7"⟩

/-- C3 counterexample: a catalog of 2 rows, every row passing the
filter, `limit=1`: the underlying catalog query counts 2 rows but the
response's `total` field is 1 (the number of accepted items), because
`get_songs` returns `total = len(songs)`. -/
theorem claim_c3_counterexample :
    (getSongs ["1", "2"] (fun _ => true) ⟨[], some 0⟩ 0 1 0 true).response.total = 1
    ∧ (["1", "2"] : List String).length = 2 := by
  constructor
  · simp [getSongs, expandLoop, filterSongs, checkThumbnail, cacheLookup, cacheInsert,
      slice, refreshCache]
  · decide

/-- C3 (amended): the response's `total` field equals the number of items
returned on the page (the length of the `songs` array), not the total row
count of the underlying catalog query. -/
theorem claim_c3_amended (catalog : List String) (probe : String → Bool)
    (st : CacheState) (now limitParam offsetParam : Nat) (thumbnailsOnly : Bool) :
    (getSongs catalog probe st now limitParam offsetParam thumbnailsOnly).response.total
      = (getSongs catalog probe st now limitParam offsetParam
          thumbnailsOnly).response.songs.length := by
  cases thumbnailsOnly with
  | false =>
      simp only [getSongs, Bool.false_eq_true, if_false]
      rw [List.length_take]
      have hsl : (slice catalog offsetParam (min limitParam 30)).length
          ≤ min limitParam 30 := by
        simp [slice, List.length_take]
      omega
  | true =>
      have h1 : (filterSongs probe (min limitParam 30)
          (slice catalog offsetParam (min limitParam 30 * 3)) []
          (refreshCache st now).map 0).songs.length ≤ min limitParam 30 :=
        filterSongs_length_le probe (min limitParam 30) _ [] _ 0 (by simp)
      have h2 := expandLoop_length_le catalog probe (min limitParam 30) catalog.length
        catalog.length offsetParam
        (filterSongs probe (min limitParam 30)
          (slice catalog offsetParam (min limitParam 30 * 3)) []
          (refreshCache st now).map 0).songs
        (filterSongs probe (min limitParam 30)
          (slice catalog offsetParam (min limitParam 30 * 3)) []
          (refreshCache st now).map 0).cache
        0 (Nat.sub_le _ _) h1
      simp only [getSongs, eq_self_iff_true, if_true]
      rw [List.length_take]
      omega

/-- C4: when every catalog item fails the existence filter (no probe
succeeds and nothing is cached as existing), the listing returns zero
items and the window-expansion loop performs at most `catalog.length`
expansions before terminating (the fetch offset strictly increases every
iteration, so the loop is bounded by catalog exhaustion). -/
theorem claim_c4_termination (catalog : List String) (probe : String → Bool)
    (st : CacheState) (now limitParam offsetParam : Nat)
    (hall : ∀ s ∈ catalog, probe (listingThumbnailPath s) = false)
    (hnt : ∀ s ∈ catalog, cacheLookup st.map s ≠ some true) :
    (getSongs catalog probe st now limitParam offsetParam true).response.songs = []
    ∧ (getSongs catalog probe st now limitParam offsetParam true).expansions
        ≤ catalog.length := by
  have hnt1 : NoTrueEntryFor (refreshCache st now).map catalog := by
    rcases refreshCache_map_cases st now with hm | hm <;> rw [hm]
    · exact hnt
    · intro s _
      simp [cacheLookup]
  have hsub : ∀ s ∈ slice catalog offsetParam (min limitParam 30 * 3), s ∈ catalog :=
    fun s hs => List.mem_of_mem_drop (List.mem_of_mem_take hs)
  have hfa := filterSongs_allfail probe (min limitParam 30) catalog hall
    (slice catalog offsetParam (min limitParam 30 * 3)) [] (refreshCache st now).map 0
    hsub hnt1
  have hel := expandLoop_allfail_aux catalog probe (min limitParam 30) catalog.length hall
    catalog.length offsetParam
    (filterSongs probe (min limitParam 30)
      (slice catalog offsetParam (min limitParam 30 * 3)) []
      (refreshCache st now).map 0).songs
    (filterSongs probe (min limitParam 30)
      (slice catalog offsetParam (min limitParam 30 * 3)) []
      (refreshCache st now).map 0).cache
    0 (Nat.sub_le _ _) hfa.2
  constructor
  · simp only [getSongs, eq_self_iff_true, if_true]
    rw [hel.1, hfa.1]
    simp
  · simp only [getSongs, eq_self_iff_true, if_true]
    have h2 := hel.2
    omega

/-- Witness for C4 at a concrete 5-row catalog whose probes all fail and
an empty starting cache. -/
theorem claim_c4_witness :
    (∀ s ∈ (["1", "2", "3", "4", "5"] : List String),
        (fun _ => false : String → Bool) (listingThumbnailPath s) = false)
    ∧ (∀ s ∈ (["1", "2", "3", "4", "5"] : List String),
        cacheLookup (⟨[], some 0⟩ : CacheState).map s ≠ some true)
    ∧ ((getSongs ["1", "2", "3", "4", "5"] (fun _ => false)
          ⟨[], some 0⟩ 0 1 0 true).response.songs = []
      ∧ (getSongs ["1", "2", "3", "4", "5"] (fun _ => false)
          ⟨[], some 0⟩ 0 1 0 true).expansions
          ≤ (["1", "2", "3", "4", "5"] : List String).length) :=
  ⟨by simp, by simp [cacheLookup],
    claim_c4_termination _ _ _ _ _ _ (by simp) (by simp [cacheLookup])⟩

/-- C1 counterexample.  First input: catalog of N=8 rows, limit L=1,
exactly K=1 row (`"4"`) passing the filter, yet the listing returns 0
items instead of `min(L,K) = 1` — the expansion loop advances
`offset = next_offset + next_limit` and then fetches from
`offset + expanded_limit`, skipping the rows in between.  Second input:
N=2, L=1, K=1 with `"1"` passing: the item count is right but `has_more`
is `true` although `K > L` is false. -/
theorem claim_c1_counterexample :
    ((getSongs ["0", "1", "2", "3", "4", "5", "6", "7"]
        (fun k => k == "thumbnails/000004.png")
        ⟨[], some 0⟩ 0 1 0 true).response.songs.length = 0
      ∧ (List.filter (fun s => listingThumbnailPath s == "thumbnails/000004.png")
          ["0", "1", "2", "3", "4", "5", "6", "7"]).length = 1
      ∧ (["0", "1", "2", "3", "4", "5", "6", "7"] : List String).length = 8)
    ∧ ((getSongs ["1", "2"] (fun k => k == "thumbnails/000001.png")
          ⟨[], some 0⟩ 0 1 0 true).response.hasMore = true
      ∧ (List.filter (fun s => listingThumbnailPath s == "thumbnails/000001.png")
          ["1", "2"]).length = 1
      ∧ (["1", "2"] : List String).length = 2) := by
  refine ⟨⟨?_, by decide, by decide⟩, ?_, by decide, by decide⟩
  · simp [getSongs, expandLoop, filterSongs, checkThumbnail, cacheLookup, cacheInsert,
      slice, refreshCache, listingThumbnailPath, stripLeadingZeros, zfill, zfillPad]
  · simp [getSongs, expandLoop, filterSongs, checkThumbnail, cacheLookup, cacheInsert,
      slice, refreshCache, listingThumbnailPath, stripLeadingZeros, zfill, zfillPad]

/-- C1 (amended): when the whole catalog fits in the initial 3x-limit
fetch window (N ≤ 3L, so the skipping expansion loop never runs) and the
starting cache agrees with the store, a listing with `limit = L ≤ 30`,
`offset = 0` and the existence filter enabled returns exactly `min(L,K)`
items; `has_more` however is `true` whenever K < N (any catalog row was
left out), not `K > L`. -/
theorem claim_c1_amended (catalog : List String) (probe : String → Bool)
    (st : CacheState) (now limitParam : Nat)
    (hL : limitParam ≤ 30)
    (hcons : CacheConsistent probe st.map)
    (hN : catalog.length ≤ limitParam * 3)
    (hK : (catalog.filter (fun s => probe (listingThumbnailPath s))).length
        < catalog.length) :
    (getSongs catalog probe st now limitParam 0 true).response.songs.length
        = min limitParam
            (catalog.filter (fun s => probe (listingThumbnailPath s))).length
    ∧ (getSongs catalog probe st now limitParam 0 true).response.hasMore = true := by
  have hp : min limitParam 30 = limitParam := Nat.min_eq_left hL
  have hcons1 : CacheConsistent probe (refreshCache st now).map := by
    rcases refreshCache_map_cases st now with hm | hm <;> rw [hm]
    · exact hcons
    · intro id b hb
      simp [cacheLookup] at hb
  have hslice : slice catalog 0 (limitParam * 3) = catalog := by
    simp only [slice, List.drop_zero]
    exact List.take_of_length_le hN
  have hflen := filterSongs_length_consistent probe limitParam catalog []
    (refreshCache st now).map 0 hcons1 (by simp)
  have h1 := hflen.1
  simp only [List.length_nil, Nat.zero_add] at h1
  have hstop : ¬((filterSongs probe limitParam catalog []
        (refreshCache st now).map 0).songs.length < limitParam
      ∧ 0 + limitParam * 3 < catalog.length) := by
    intro hcontra
    omega
  constructor
  · simp only [getSongs, eq_self_iff_true, if_true, hp, hslice]
    rw [expandLoop_stop hstop]
    simp only [List.length_take]
    omega
  · simp only [getSongs, eq_self_iff_true, if_true, hp, hslice]
    rw [expandLoop_stop hstop]
    simp only [Bool.or_eq_true, decide_eq_true_eq]
    omega

/-- Witness for C1 (amended) at a 2-row catalog with K=1 passing row,
L=1, and an empty starting cache. -/
theorem claim_c1_witness :
    (1 ≤ 30
      ∧ (["1", "2"] : List String).length ≤ 1 * 3
      ∧ (List.filter (fun s => listingThumbnailPath s == "thumbnails/000001.png")
          ["1", "2"]).length < (["1", "2"] : List String).length)
    ∧ ((getSongs ["1", "2"] (fun k => k == "thumbnails/000001.png")
          ⟨[], some 0⟩ 0 1 0 true).response.songs.length
        = min 1 (List.filter (fun s => listingThumbnailPath s == "thumbnails/000001.png")
            ["1", "2"]).length
      ∧ (getSongs ["1", "2"] (fun k => k == "thumbnails/000001.png")
          ⟨[], some 0⟩ 0 1 0 true).response.hasMore = true) :=
  ⟨⟨by decide, by decide, by decide⟩,
    claim_c1_amended ["1", "2"] (fun k => k == "thumbnails/000001.png") ⟨[], some 0⟩ 0 1
      (by decide) (by intro id b hb; simp [cacheLookup] at hb) (by decide) (by decide)⟩

end SpotifyGateway
